import Mathlib

/-!
Shallow embedding of the glazier keyboard/utility core
(`src/common_util.rs` and `src/backend/shared/xkb/mod.rs`)
together with proofs of the spec's claims about it.

Conventions:
* Machine integers (`u8`, `u32`, `u64`) are modelled as `Nat`, with `% 2 ^ w`
  made explicit exactly where the Rust code can overflow.
* A Rust `panic!`/`assert!`/`expect` outcome is modelled by an explicit
  `PanicOr` result (or `Option` where noted), never swallowed.
* Instants are `Nat` nanosecond timestamps supplied by the caller (the Rust
  code reads `Instant::now()`; the embedding passes the clock value in).
* External collaborators (the native xkbcommon engine, the static keysym
  table, the hardware-keycode tables) are parameters of the embedding:
  the theorems quantify over every behaviour those collaborators may have,
  constrained only by their documented contracts where a claim says so.
-/

/-! ## SharedQueue (`common_util.rs`, `shared_queue` / `SharedEnqueuer::enqueue`
    / `SharedDequeuer::try_dequeue`)

The queue is an mpsc channel plus a mutex-guarded `empty_flag : bool`.  Every
operation in the source happens with the single guard held, so the sequential
state `(items, empty_flag)` is the exact state of the Rust object between
operations; FIFO channel contents are the list `items` (front = next to pop). -/

structure SharedQueue (T : Type) where
  items : List T
  empty_flag : Bool
  deriving Repr, DecidableEq

/-- `shared_queue()` — the freshly created pair shares an empty channel and an
empty flag initialised to `true`. -/
def shared_queue (T : Type) : SharedQueue T :=
  { items := [], empty_flag := true }

namespace SharedQueue

/-- `SharedEnqueuer::enqueue`: with the guard held, send `t` on the channel,
then read the flag's prior value, set the flag to `false`, and return the
prior value. -/
def enqueue {T : Type} (q : SharedQueue T) (t : T) : Bool × SharedQueue T :=
  let sent := { q with items := q.items ++ [t] }
  let was_empty := sent.empty_flag
  (was_empty, { sent with empty_flag := false })

/-- `SharedDequeuer::try_dequeue`: with the guard held, `try_recv`; when the
channel is empty set the flag to `true`; otherwise return the popped item and
leave the flag alone. -/
def try_dequeue {T : Type} (q : SharedQueue T) : Option T × SharedQueue T :=
  match q.items with
  | [] => (none, { q with empty_flag := true })
  | x :: rest => (some x, { q with items := rest })

/-- Repeated `try_dequeue` until a call finds nothing (the drain loop a
consumer runs after being woken).  When an item is popped the next state is
`(try_dequeue q).2 = { q with items := rest }`, which is what the recursive
call receives. -/
def drain {T : Type} (q : SharedQueue T) : SharedQueue T :=
  match h : q.items with
  | [] => (try_dequeue q).2
  | _ :: rest => drain { q with items := rest }
  termination_by q.items.length
  decreasing_by simp [h]

lemma drain_eq_aux {T : Type} (l : List T) (q : SharedQueue T) (hq : q.items = l) :
    drain q = { items := [], empty_flag := true } := by
  induction l generalizing q with
  | nil =>
      rw [drain]
      split
      · simp [try_dequeue, hq]
      · simp_all
  | cons x rest ih =>
      rw [drain]
      split
      · simp_all
      · rename_i y rest' h
        have hr : rest' = rest := by
          rw [h] at hq
          injection hq
        exact ih _ (by simp [hr])

lemma drain_eq {T : Type} (q : SharedQueue T) :
    drain q = { items := [], empty_flag := true } :=
  drain_eq_aux q.items q rfl

end SharedQueue

/-! ## Counter (`common_util.rs`, `Counter`)

An `AtomicU64` starting at `1`; `next` is `fetch_add(1, Relaxed)`, returning
the pre-increment value.  The stored value wraps modulo `2 ^ 64`. -/

/-- The `Counter` state: the current value of the `AtomicU64`. -/
abbrev Counter := Nat

/-- `Counter::new()` — starts at 1. -/
def Counter.new : Counter := 1

/-- `Counter::new_unchecked(init)` — caller promises `init ≠ 0`. -/
def Counter.new_unchecked (init : Nat) : Counter := init % 2 ^ 64

/-- `Counter::next`: `fetch_add(1, Relaxed)` returns the old value and stores
the wrapped successor. -/
def Counter.next (c : Counter) : Nat × Counter :=
  (c, (c + 1) % 2 ^ 64)

/-- `Counter::next_nonzero`: `NonZeroU64::new(self.0.fetch_add(1, Relaxed)).unwrap()`.
`NonZeroU64::new` yields `none` exactly on `0`, and `unwrap` on `none` panics;
the `Option` result records whether the unwrap panics (`none`) or returns the
nonzero value (`some`). -/
def Counter.next_nonzero (c : Counter) : Option Nat × Counter :=
  let (v, c') := Counter.next c
  (if v = 0 then none else some v, c')

/-- The counter state after `n` calls to `next` (or `next_nonzero`, which
advances the atomic identically). -/
def Counter.after (n : Nat) (c : Counter) : Counter :=
  match n with
  | 0 => c
  | n + 1 => Counter.after n (Counter.next c).2

/-- The list of values returned by `n` successive `next` calls. -/
def Counter.values (n : Nat) (c : Counter) : List Nat :=
  match n with
  | 0 => []
  | n + 1 => (Counter.next c).1 :: Counter.values n (Counter.next c).2

lemma Counter.after_no_wrap (n : Nat) (c : Nat) (h : c + n < 2 ^ 64) :
    Counter.after n c = c + n := by
  rw [show (2 : Nat) ^ 64 = 18446744073709551616 from by norm_num] at h
  induction n generalizing c with
  | zero => simp [Counter.after]
  | succ n ih =>
      rw [Counter.after, Counter.next]
      have hc : c + 1 < 2 ^ 64 := by
        rw [show (2 : Nat) ^ 64 = 18446744073709551616 from by norm_num]
        omega
      simp only [Nat.mod_eq_of_lt hc]
      rw [ih (c + 1) (by omega)]
      ring

lemma Counter.values_no_wrap (n : Nat) (c : Nat) (h : c + n < 2 ^ 64) :
    Counter.values n c = List.range' c n := by
  rw [show (2 : Nat) ^ 64 = 18446744073709551616 from by norm_num] at h
  induction n generalizing c with
  | zero => simp [Counter.values]
  | succ n ih =>
      rw [Counter.values, Counter.next, List.range']
      have hc : c + 1 < 2 ^ 64 := by
        rw [show (2 : Nat) ^ 64 = 18446744073709551616 from by norm_num]
        omega
      simp only [Nat.mod_eq_of_lt hc]
      rw [ih (c + 1) (by omega)]

/-! ## Keymap compilation from a buffer
(`xkb/mod.rs`, `Context::keymap_from_slice`)

The native compile `xkb_keymap_new_from_string` is an external collaborator:
it is a parameter `compile` mapping the buffer to `some handle` (non-null) or
`none` (null).  Keymap handles are abstract `Nat` values. -/

/-- Outcome of a Rust call that can `panic!`. -/
inductive PanicOr (α : Type) where
  | panicked (msg : String) : PanicOr α
  | ok (a : α) : PanicOr α
  deriving Repr, DecidableEq

/-- `Context::keymap_from_slice(buffer)`:
`assert!` the buffer contains a `0` byte, call the native buffer compile,
`assert!` the returned handle is non-null, and wrap it. -/
def keymap_from_slice (compile : List Nat → Option Nat) (buffer : List Nat) :
    PanicOr Nat :=
  if buffer.any (fun byte => byte == 0) then
    match compile buffer with
    | some keymap => .ok keymap
    | none => .panicked "assertion failed: !keymap.is_null()"
  else
    .panicked "`keymap_from_slice` expects a null-terminated string"

/-! ## ClickCounter (`common_util.rs`, `ClickCounter`)

`kurbo::Point` has `f64` coordinates; the embedding uses exact rationals.
`Point::distance` is the Euclidean distance, an `f64` square root; the only
way the source consumes it is the comparison `distance > max_distance`, which
the embedding decides exactly over `ℚ` by the equivalent sign/square test
`dist_gt` (justified against the real square root by `Point.dist_gt_iff`).
Instants and `Duration`s are nanosecond counts (`Nat`); `Instant::now()`
becomes an explicit `now` argument. -/

structure Point where
  x : ℚ
  y : ℚ
  deriving DecidableEq

/-- The exact truth value of `p.distance q > d` for the Euclidean distance:
the distance is nonnegative, so the comparison holds iff `d` is negative or
`d ^ 2` is exceeded by the squared distance. -/
def Point.dist_gt (p q : Point) (d : ℚ) : Prop :=
  d < 0 ∨ d ^ 2 < (q.x - p.x) ^ 2 + (q.y - p.y) ^ 2

instance (p q : Point) (d : ℚ) : Decidable (Point.dist_gt p q d) := by
  unfold Point.dist_gt
  infer_instance

/-- `dist_gt` decides exactly the comparison the Rust code performs:
`last_pos.distance(click_pos) > max_distance` with the real Euclidean
distance. -/
lemma Point.dist_gt_iff (p q : Point) (d : ℚ) :
    Point.dist_gt p q d ↔
      (d : ℝ) < Real.sqrt ((((q.x : ℝ) - (p.x : ℝ)) ^ 2 + ((q.y : ℝ) - (p.y : ℝ)) ^ 2)) := by
  constructor
  · rintro (hneg | hsq)
    · calc (d : ℝ) < 0 := by exact_mod_cast hneg
        _ ≤ _ := Real.sqrt_nonneg _
    · exact Real.lt_sqrt_of_sq_lt (by exact_mod_cast hsq)
  · intro h
    by_cases hd : d < 0
    · exact Or.inl hd
    · refine Or.inr ?_
      have hd' : (0 : ℝ) ≤ (d : ℝ) := by exact_mod_cast not_lt.mp hd
      have := (Real.lt_sqrt hd').mp h
      push_cast at this
      exact_mod_cast this

/-- `Duration::from_millis`, in nanoseconds. -/
def Duration.from_millis (millis : Nat) : Nat := millis * 1000000

/-- `f64::MAX`, exactly: `(2 - 2⁻⁵²) · 2¹⁰²³`. -/
def f64MAX : ℚ := 2 ^ 1024 - 2 ^ 971

/-- `MULTI_CLICK_INTERVAL`: the default 500 ms interval. -/
def MULTI_CLICK_INTERVAL : Nat := Duration.from_millis 500

/-- `MULTI_CLICK_MAX_DISTANCE`: the default 5.0 distance. -/
def MULTI_CLICK_MAX_DISTANCE : ℚ := 5

/-- `ClickCounter` state; the `Cell`s become plain fields with explicit state
passing. `click_count` is the stored `u8` value. -/
structure ClickCounter where
  max_interval : Nat
  max_distance : ℚ
  last_click : Nat
  last_pos : Point
  click_count : Nat
  deriving DecidableEq

/-- `ClickCounter::new(max_interval, max_distance)`; `now` is the value of
`Instant::now()` at construction. -/
def ClickCounter.new (max_interval : Nat) (max_distance : ℚ) (now : Nat) :
    ClickCounter :=
  { max_interval := max_interval
    max_distance := max_distance
    last_click := now
    click_count := 0
    last_pos := { x := f64MAX, y := 0 } }

/-- `ClickCounter::default()`. -/
def ClickCounter.default (now : Nat) : ClickCounter :=
  ClickCounter.new MULTI_CLICK_INTERVAL MULTI_CLICK_MAX_DISTANCE now

/-- `u8::saturating_add(1)` on a stored count. -/
def saturating_succ (count : Nat) : Nat := min (count + 1) 255

/-- `ClickCounter::count_for_click(click_pos)` at clock value `now`:
replace the recorded time and position, reset the count to `0` when the
elapsed time exceeds `max_interval` or the distance exceeds `max_distance`,
then increment with saturation, store, and return the new count. -/
def ClickCounter.count_for_click (c : ClickCounter) (now : Nat) (click_pos : Point) :
    Nat × ClickCounter :=
  let click_time := now
  let last_time := c.last_click
  let last_pos := c.last_pos
  let elapsed := click_time - last_time
  let replaced := { c with last_click := click_time, last_pos := click_pos }
  let reset :=
    if elapsed > c.max_interval ∨ Point.dist_gt last_pos click_pos c.max_distance then
      { replaced with click_count := 0 }
    else replaced
  let click_count := saturating_succ reset.click_count
  (click_count, { reset with click_count := click_count })

/-! ## xkb keyboard state (`xkb/mod.rs`, `State`)

The native xkbcommon engine, the static keysym table (`keycodes::map_key`),
and the hardware-keycode tables (`backend::shared`) are external
collaborators: the embedding takes them as an `XkbEnv` of pure functions over
an abstract native-state value of type `σ` and quantifies over them. -/

/-- `keyboard_types::Key` reduced to the shapes this algorithm distinguishes:
`Unidentified`, a single-code-point `Character` (the source wraps the code
point in a one-char `String`), or some other named key. -/
inductive Key where
  | Unidentified : Key
  | Character (codepoint : Nat) : Key
  | Named (name : String) : Key
  deriving DecidableEq, Repr

/-- `keyboard_types::Code`: `Unidentified` plus the named physical codes. -/
inductive Code where
  | Unidentified : Code
  | Named (name : String) : Code
  deriving DecidableEq, Repr

/-- `keyboard_types::Location`. -/
inductive Location where
  | Standard : Location
  | Left : Location
  | Right : Location
  | Numpad : Location
  deriving DecidableEq, Repr

/-- `keyboard_types::KeyState` (`Down` on press, `Up` on release). -/
inductive KeyState where
  | Down : KeyState
  | Up : KeyState
  deriving DecidableEq, Repr

/-! The `keyboard_types::Modifiers` bit-set, as the underlying bit mask with
the crate's flag values. -/

namespace Modifiers

def empty : Nat := 0
def ALT : Nat := 0x01
def CAPS_LOCK : Nat := 0x04
def CONTROL : Nat := 0x08
def NUM_LOCK : Nat := 0x80
def SHIFT : Nat := 0x200
def SUPER : Nat := 0x400

/-- `mods.contains(flag)` for a single-bit flag: the bit is set. -/
def contains (mods flag : Nat) : Prop := mods &&& flag ≠ 0

instance (mods flag : Nat) : Decidable (contains mods flag) := by
  unfold contains
  infer_instance

end Modifiers

/-- `XKB_MOD_INVALID`: the `xkb_mod_index_t` "absent" sentinel,
`(xkb_mod_index_t)-1 = 0xffffffff`. -/
def XKB_MOD_INVALID : Nat := 0xffffffff

/-- Modelled from the spec: the modifier-name constants passed to the
engine's `lookup modifier index` operation.  The binding layer defining
`XKB_MOD_NAME_*` (`xkbcommon_sys`) is not under `src/`; the spec's external
interface lists the names `{"Control","Shift","Alt","Logo","Lock","NumLock"}`.
Only their distinctness-as-opaque-strings matters to the claims. -/
def XKB_MOD_NAME_CTRL : String := "Control"

/-- Modelled from the spec: see `XKB_MOD_NAME_CTRL`. -/
def XKB_MOD_NAME_SHIFT : String := "Shift"

/-- Modelled from the spec: see `XKB_MOD_NAME_CTRL`. -/
def XKB_MOD_NAME_ALT : String := "Alt"

/-- Modelled from the spec: see `XKB_MOD_NAME_CTRL`. -/
def XKB_MOD_NAME_LOGO : String := "Logo"

/-- Modelled from the spec: see `XKB_MOD_NAME_CTRL`. -/
def XKB_MOD_NAME_CAPS : String := "Lock"

/-- Modelled from the spec: see `XKB_MOD_NAME_CTRL`. -/
def XKB_MOD_NAME_NUM : String := "NumLock"

/-- `ActiveModifiers` (`xkb/mod.rs`): the six-field snapshot pushed into the
live state. -/
structure ActiveModifiers where
  base_mods : Nat
  latched_mods : Nat
  locked_mods : Nat
  base_layout : Nat
  latched_layout : Nat
  locked_layout : Nat
  deriving DecidableEq, Repr

/-- `ModsIndices`: the six cached `xkb_mod_index_t` values. -/
structure ModsIndices where
  control : Nat
  shift : Nat
  alt : Nat
  super_ : Nat
  caps_lock : Nat
  num_lock : Nat
  deriving DecidableEq, Repr

/-- The external xkbcommon engine and static tables (spec §6), as pure
functions over an abstract native `xkb_state` value of type `σ`.  The keymap
is the fixed one the `State` under study was built from. -/
structure XkbEnv (σ : Type) where
  /-- `xkb_keymap_mod_get_index(keymap, name)` — an index, or `XKB_MOD_INVALID`
  when the name is absent from the layout. -/
  keymap_mod_get_index : String → Nat
  /-- `xkb_state_update_mask` — the native state after the snapshot. -/
  state_update_mask : σ → ActiveModifiers → σ
  /-- `xkb_state_key_get_one_sym(state, scancode)` — the keysym. -/
  state_key_get_one_sym : σ → Nat → Nat
  /-- `xkb_state_mod_index_is_active(state, idx, XKB_STATE_MODS_EFFECTIVE)` —
  a C `int`. -/
  state_mod_index_is_active : σ → Nat → Int
  /-- `xkb_keysym_to_utf32(keysym)` — `0` or a Unicode scalar value. -/
  keysym_to_utf32 : Nat → Nat
  /-- `keycodes::map_key(keysym)` — the static keysym-to-named-key table. -/
  map_key : Nat → Key
  /-- `backend::shared::hardware_keycode_to_code` (applied to a `u16`). -/
  hardware_keycode_to_code : Nat → Code
  /-- `backend::shared::code_to_location`. -/
  code_to_location : Code → Location

/-- `State` (`xkb/mod.rs`): the native state handle plus the cached
modifier indices. -/
structure State (σ : Type) where
  state : σ
  mods : ModsIndices

/-- `KeyEvent` as assembled by `State::key_event`; `mods` is the
`Modifiers` bit mask. -/
structure KeyEvent where
  state : KeyState
  key : Key
  code : Code
  location : Location
  mods : Nat
  repeat_flag : Bool
  is_composing : Bool
  deriving DecidableEq, Repr

namespace State

/-- `State::new(keymap, state)`: store the handle and resolve the six named
modifier indices against the keymap, once. -/
def new {σ : Type} (env : XkbEnv σ) (state : σ) : State σ :=
  { state := state
    mods :=
      { control := env.keymap_mod_get_index XKB_MOD_NAME_CTRL
        shift := env.keymap_mod_get_index XKB_MOD_NAME_SHIFT
        alt := env.keymap_mod_get_index XKB_MOD_NAME_ALT
        super_ := env.keymap_mod_get_index XKB_MOD_NAME_LOGO
        caps_lock := env.keymap_mod_get_index XKB_MOD_NAME_CAPS
        num_lock := env.keymap_mod_get_index XKB_MOD_NAME_NUM } }

/-- `State::update_xkb_state(mods)`: push the six-field snapshot into the
native state with `xkb_state_update_mask`. -/
def update_xkb_state {σ : Type} (env : XkbEnv σ) (s : State σ)
    (mods : ActiveModifiers) : State σ :=
  { s with state := env.state_update_mask s.state mods }

/-- `State::key_get_one_sym(scancode)`. -/
def key_get_one_sym {σ : Type} (env : XkbEnv σ) (s : State σ) (scancode : Nat) :
    Nat :=
  env.state_key_get_one_sym s.state scancode

/-- `State::key_get_utf8(keysym)`: `xkb_keysym_to_utf32`, `none` on `0`
("no unicode representation").  On a nonzero result the source converts the
code point with `char::from_u32(..).expect(..)`, which succeeds under the
engine's §6 contract that nonzero results are Unicode scalar values; the
embedding keeps the code point itself (`Key.Character`'s payload). -/
def key_get_utf8 {σ : Type} (env : XkbEnv σ) (keysym : Nat) : Option Nat :=
  let chr := env.keysym_to_utf32 keysym
  if chr = 0 then none else some chr

/-- `State::get_logical_key(scancode)`: keysym, then the static table, then
the Unicode fallback. -/
def get_logical_key {σ : Type} (env : XkbEnv σ) (s : State σ) (scancode : Nat) :
    Key :=
  let keysym := key_get_one_sym env s scancode
  let key := env.map_key keysym
  if key = Key.Unidentified then
    match key_get_utf8 env keysym with
    | some c => Key.Character c
    | none => key
  else key

/-- The `(index, flag)` pairs of the `key_event` modifier loop, in source
order. -/
def mod_pairs (mi : ModsIndices) : List (Nat × Nat) :=
  [(mi.control, Modifiers.CONTROL),
   (mi.shift, Modifiers.SHIFT),
   (mi.super_, Modifiers.SUPER),
   (mi.alt, Modifiers.ALT),
   (mi.caps_lock, Modifiers.CAPS_LOCK),
   (mi.num_lock, Modifiers.NUM_LOCK)]

/-- `State::key_event(scancode, state, repeat)`: map the scancode to a code
(`Code::Unidentified` when it does not fit in a `u16`), resolve the logical
key, derive the location, report `is_composing = false`, and OR into `mods`
the flag of every cached index the engine reports effectively active.  The
call mutates nothing in the Rust struct; the unchanged state is returned for
sequencing. -/
def key_event {σ : Type} (env : XkbEnv σ) (s : State σ) (scancode : Nat)
    (key_state : KeyState) (repeat_flag : Bool) : KeyEvent × State σ :=
  let code :=
    if scancode < 2 ^ 16 then env.hardware_keycode_to_code scancode
    else Code.Unidentified
  let key := get_logical_key env s scancode
  let location := env.code_to_location code
  let is_composing := false
  let mods :=
    (mod_pairs s.mods).foldl
      (fun mods p =>
        if env.state_mod_index_is_active s.state p.1 ≠ 0 then mods ||| p.2
        else mods)
      Modifiers.empty
  ({ state := key_state
     key := key
     code := code
     location := location
     mods := mods
     repeat_flag := repeat_flag
     is_composing := is_composing },
   s)

/-- One call on a `State`: a snapshot push or a key translation. -/
inductive Op where
  | update_state (mods : ActiveModifiers) : Op
  | key (scancode : Nat) (key_state : KeyState) (repeat_flag : Bool) : Op

/-- Run one `Op`. -/
def apply_op {σ : Type} (env : XkbEnv σ) (s : State σ) : Op → State σ
  | .update_state m => update_xkb_state env s m
  | .key sc ks r => (key_event env s sc ks r).2

/-- Run a sequence of `Op`s. -/
def apply_ops {σ : Type} (env : XkbEnv σ) (s : State σ) (ops : List Op) :
    State σ :=
  ops.foldl (apply_op env) s

end State

/-! ## Claim theorems -/

/-- C3: `enqueue` pushes the item onto the channel, sets the empty flag to
`false`, and returns the flag's prior value; hence an enqueue into a freshly
created queue, into a queue whose last `try_dequeue` found nothing, or into a
fully drained queue returns `true`, while a second enqueue before any dequeue
returns `false`. -/
theorem C3_shared_queue_enqueue (T : Type) (q : SharedQueue T) (t t' : T) :
    (q.enqueue t).1 = q.empty_flag ∧
    (q.enqueue t).2.items = q.items ++ [t] ∧
    (q.enqueue t).2.empty_flag = false ∧
    ((shared_queue T).enqueue t).1 = true ∧
    ((q.try_dequeue.1 = none) → ((q.try_dequeue.2).enqueue t).1 = true) ∧
    (((q.enqueue t).2.enqueue t').1 = false) ∧
    ((q.drain.enqueue t).1 = true) := by
  refine ⟨rfl, rfl, rfl, rfl, ?_, rfl, ?_⟩
  · intro hnone
    match hq : q.items with
    | [] => simp [SharedQueue.enqueue, SharedQueue.try_dequeue, hq]
    | x :: rest => simp [SharedQueue.try_dequeue, hq] at hnone
  · rw [SharedQueue.drain_eq]
    rfl

/-- Witness for C3 at a concrete queue. -/
theorem C3_shared_queue_enqueue_witness :
    (({ items := [], empty_flag := false } : SharedQueue Nat).try_dequeue.1 = none) ∧
    ((({ items := [], empty_flag := false } :
        SharedQueue Nat).try_dequeue.2).enqueue 7).1 = true :=
  ⟨by decide,
   (C3_shared_queue_enqueue Nat { items := [], empty_flag := false } 7 8).2.2.2.2.1
     (by decide)⟩

/-- C4: when `try_dequeue` finds nothing it sets the empty flag to `true`
before returning (leaving the channel as it was); when it pops an item, it
returns the channel's front item and leaves the flag untouched. -/
theorem C4_shared_queue_try_dequeue (T : Type) (q : SharedQueue T) :
    ((q.try_dequeue.1 = none) →
      q.try_dequeue.2.empty_flag = true ∧ q.try_dequeue.2.items = q.items) ∧
    (∀ x : T, q.try_dequeue.1 = some x →
      q.try_dequeue.2.empty_flag = q.empty_flag ∧
      q.items = x :: q.try_dequeue.2.items) := by
  constructor
  · intro hnone
    match hq : q.items with
    | [] => simp [SharedQueue.try_dequeue, hq]
    | x :: rest => simp [SharedQueue.try_dequeue, hq] at hnone
  · intro x hx
    match hq : q.items with
    | [] => simp [SharedQueue.try_dequeue, hq] at hx
    | y :: rest =>
        simp only [SharedQueue.try_dequeue, hq, Option.some.injEq] at hx
        simp [SharedQueue.try_dequeue, hq, hx]

/-- Witness for C4 at concrete queues, one per branch. -/
theorem C4_shared_queue_try_dequeue_witness :
    (({ items := [], empty_flag := false } : SharedQueue Nat).try_dequeue.2.empty_flag = true ∧
      ({ items := [], empty_flag := false } : SharedQueue Nat).try_dequeue.2.items = []) ∧
    (({ items := [3, 4], empty_flag := false } : SharedQueue Nat).try_dequeue.2.empty_flag = false ∧
      ([3, 4] : List Nat) =
        3 :: ({ items := [3, 4], empty_flag := false } : SharedQueue Nat).try_dequeue.2.items) :=
  ⟨(C4_shared_queue_try_dequeue Nat { items := [], empty_flag := false }).1 (by decide),
   (C4_shared_queue_try_dequeue Nat { items := [3, 4], empty_flag := false }).2 3 (by decide)⟩

/-- C5: `keymap_from_slice` panics when the buffer holds no `0` byte, panics
when the native buffer compile returns a null handle, and returns the keymap
wrapped in `ok` when the buffer is null-terminated and the compile returns a
non-null handle. -/
theorem C5_keymap_from_slice_panics (compile : List Nat → Option Nat)
    (buffer : List Nat) :
    (buffer.any (fun byte => byte == 0) = false →
      keymap_from_slice compile buffer =
        .panicked "`keymap_from_slice` expects a null-terminated string") ∧
    (buffer.any (fun byte => byte == 0) = true → compile buffer = none →
      keymap_from_slice compile buffer =
        .panicked "assertion failed: !keymap.is_null()") ∧
    (∀ km : Nat, buffer.any (fun byte => byte == 0) = true →
      compile buffer = some km →
      keymap_from_slice compile buffer = .ok km) := by
  refine ⟨fun hno => ?_, fun hyes hnull => ?_, fun km hyes hkm => ?_⟩
  · simp [keymap_from_slice, hno]
  · simp [keymap_from_slice, hyes, hnull]
  · simp [keymap_from_slice, hyes, hkm]

/-- Witness for C5: a null-terminated buffer whose compile succeeds. -/
theorem C5_keymap_from_slice_panics_witness :
    keymap_from_slice (fun _ => some 42) [120, 0] = .ok 42 :=
  (C5_keymap_from_slice_panics (fun _ => some 42) [120, 0]).2.2 42 (by decide) rfl

/-- C7: for every `N < 2 ^ 64 - 1`, `N` sequential `next()` calls on a fresh
counter return exactly `1, 2, ..., N` — strictly increasing (hence pairwise
distinct), starting at 1. -/
theorem C7_counter_next_values (N : Nat) (h : N < 2 ^ 64 - 1) :
    Counter.values N Counter.new = List.range' 1 N ∧
    (Counter.values N Counter.new).Pairwise (· < ·) ∧
    (0 < N → (Counter.values N Counter.new).head? = some 1) := by
  have hlt : (1 : Nat) + N < 2 ^ 64 := by
    rw [show (2 : Nat) ^ 64 = 18446744073709551616 from by norm_num] at h ⊢
    omega
  have hv : Counter.values N Counter.new = List.range' 1 N :=
    Counter.values_no_wrap N Counter.new hlt
  refine ⟨hv, ?_, ?_⟩
  · rw [hv]
    exact List.pairwise_lt_range' 1 N
  · intro hN
    rw [hv]
    cases N with
    | zero => omega
    | succ n => rfl

/-- Witness for C7 at `N = 3`. -/
theorem C7_counter_next_values_witness :
    Counter.values 3 Counter.new = [1, 2, 3] ∧
    (Counter.values 3 Counter.new).Pairwise (· < ·) := by
  have h := C7_counter_next_values 3 (by norm_num)
  exact ⟨by rw [h.1]; rfl, h.2.1⟩

/-- C1: in `get_logical_key`, a keysym the static table maps to a concrete
key yields that key regardless of its Unicode mapping; a keysym the table
leaves `Unidentified` yields the single-character key of its nonzero Unicode
code point; and when that conversion yields `0` the key stays
`Unidentified`. -/
theorem C1_get_logical_key_resolution (σ : Type) (env : XkbEnv σ) (s : State σ)
    (scancode : Nat) :
    (env.map_key (State.key_get_one_sym env s scancode) ≠ Key.Unidentified →
      State.get_logical_key env s scancode =
        env.map_key (State.key_get_one_sym env s scancode)) ∧
    (env.map_key (State.key_get_one_sym env s scancode) = Key.Unidentified →
      env.keysym_to_utf32 (State.key_get_one_sym env s scancode) ≠ 0 →
      State.get_logical_key env s scancode =
        Key.Character (env.keysym_to_utf32 (State.key_get_one_sym env s scancode))) ∧
    (env.map_key (State.key_get_one_sym env s scancode) = Key.Unidentified →
      env.keysym_to_utf32 (State.key_get_one_sym env s scancode) = 0 →
      State.get_logical_key env s scancode = Key.Unidentified) := by
  refine ⟨fun hmap => ?_, fun hmap hchr => ?_, fun hmap hchr => ?_⟩
  · simp [State.get_logical_key, hmap]
  · simp [State.get_logical_key, State.key_get_utf8, hmap, hchr]
  · simp [State.get_logical_key, State.key_get_utf8, hmap, hchr]

/-- A concrete `XkbEnv` over `Nat` native states for witnesses: every keysym
is outside the static table, `xkb_keysym_to_utf32` yields `0x61` (`"a"`),
`xkb_state_key_get_one_sym` echoes the scancode, and no modifier index is
active. -/
def witnessEnv : XkbEnv Nat :=
  { keymap_mod_get_index := fun _ => XKB_MOD_INVALID
    state_update_mask := fun st _ => st
    state_key_get_one_sym := fun _ scancode => scancode
    state_mod_index_is_active := fun _ _ => 0
    keysym_to_utf32 := fun _ => 0x61
    map_key := fun _ => Key.Unidentified
    hardware_keycode_to_code := fun _ => Code.Unidentified
    code_to_location := fun _ => Location.Standard }

/-- Witness for C1: a keysym with no table entry whose Unicode code point is
`0x61` resolves to the character key `"a"`. -/
theorem C1_get_logical_key_resolution_witness :
    State.get_logical_key witnessEnv { state := 0, mods := ModsIndices.mk 0 0 0 0 0 0 } 30 =
      Key.Character 0x61 :=
  (C1_get_logical_key_resolution Nat witnessEnv
      { state := 0, mods := ModsIndices.mk 0 0 0 0 0 0 } 30).2.1 rfl (by decide)

/-- C9: the cached modifier indices are fixed at construction — `State::new`
resolves the six names against the keymap once, and no sequence of
`update_xkb_state` / `key_event` calls changes the `mods` field. -/
theorem C9_mods_resolved_once (σ : Type) (env : XkbEnv σ) (st0 : σ)
    (ops : List State.Op) :
    (State.apply_ops env (State.new env st0) ops).mods = (State.new env st0).mods ∧
    (State.new env st0).mods =
      { control := env.keymap_mod_get_index XKB_MOD_NAME_CTRL
        shift := env.keymap_mod_get_index XKB_MOD_NAME_SHIFT
        alt := env.keymap_mod_get_index XKB_MOD_NAME_ALT
        super_ := env.keymap_mod_get_index XKB_MOD_NAME_LOGO
        caps_lock := env.keymap_mod_get_index XKB_MOD_NAME_CAPS
        num_lock := env.keymap_mod_get_index XKB_MOD_NAME_NUM } := by
  constructor
  · have general : ∀ (ops : List State.Op) (s : State σ),
        (State.apply_ops env s ops).mods = s.mods := by
      intro ops
      induction ops with
      | nil => intro s; rfl
      | cons op rest ih =>
          intro s
          rw [State.apply_ops, List.foldl_cons]
          have hop : (State.apply_op env s op).mods = s.mods := by
            cases op <;> rfl
          rw [← hop]
          exact ih (State.apply_op env s op)
    exact general ops (State.new env st0)
  · rfl

/-- C10 (implicit): a fresh `ClickCounter` has count `0` and the sentinel
last position `(f64::MAX, 0.0)`, so the very first `count_for_click` — at any
position and any clock value, whatever the threshold comparison decides —
returns `1`. -/
theorem C10_first_click_is_one (max_interval : Nat) (max_distance : ℚ)
    (ctime now : Nat) (pos : Point) :
    ((ClickCounter.new max_interval max_distance ctime).count_for_click now pos).1 = 1 ∧
    (ClickCounter.new max_interval max_distance ctime).click_count = 0 ∧
    (ClickCounter.new max_interval max_distance ctime).last_pos =
      { x := f64MAX, y := 0 } := by
  refine ⟨?_, rfl, rfl⟩
  simp only [ClickCounter.count_for_click, ClickCounter.new]
  split <;> rfl

/-- C6: `count_for_click` records the new time and position; the returned
(and stored) count is `1` when the elapsed time exceeds `max_interval` or the
distance exceeds `max_distance` (reset to `0`, then increment) and the
saturating successor of the old count otherwise; it never exceeds `255`; and
the default-threshold example sequence
`(0,0)@0ms → 1`, `(1,0)@100ms → 2`, `(100,0)@150ms → 1` holds. -/
theorem C6_count_for_click (c : ClickCounter) (now : Nat) (pos : Point) :
    ((c.count_for_click now pos).2.last_click = now) ∧
    ((c.count_for_click now pos).2.last_pos = pos) ∧
    ((c.count_for_click now pos).1 =
      if now - c.last_click > c.max_interval ∨
          Point.dist_gt c.last_pos pos c.max_distance then 1
      else saturating_succ c.click_count) ∧
    ((c.count_for_click now pos).2.click_count = (c.count_for_click now pos).1) ∧
    ((c.count_for_click now pos).1 ≤ 255) ∧
    (((ClickCounter.default 0).count_for_click 0 { x := 0, y := 0 }).1 = 1 ∧
      ((((ClickCounter.default 0).count_for_click 0 { x := 0, y := 0 }).2.count_for_click
          (Duration.from_millis 100) { x := 1, y := 0 }).1 = 2) ∧
      (((((ClickCounter.default 0).count_for_click 0 { x := 0, y := 0 }).2.count_for_click
          (Duration.from_millis 100) { x := 1, y := 0 }).2.count_for_click
          (Duration.from_millis 150) { x := 100, y := 0 }).1 = 1)) := by
  have h1 : (ClickCounter.default 0).count_for_click 0 { x := 0, y := 0 } =
      (1, { max_interval := MULTI_CLICK_INTERVAL, max_distance := MULTI_CLICK_MAX_DISTANCE,
            last_click := 0, last_pos := { x := 0, y := 0 }, click_count := 1 }) := by
    simp only [ClickCounter.count_for_click, ClickCounter.default, ClickCounter.new]
    split <;> rfl
  have h2 : (ClickCounter.mk MULTI_CLICK_INTERVAL MULTI_CLICK_MAX_DISTANCE 0
        (Point.mk 0 0) 1).count_for_click (Duration.from_millis 100) { x := 1, y := 0 } =
      (2, ClickCounter.mk MULTI_CLICK_INTERVAL MULTI_CLICK_MAX_DISTANCE
        (Duration.from_millis 100) (Point.mk 1 0) 2) := by
    norm_num [ClickCounter.count_for_click, Point.dist_gt, MULTI_CLICK_INTERVAL,
      MULTI_CLICK_MAX_DISTANCE, Duration.from_millis, saturating_succ, Nat.min_def]
  refine ⟨?_, ?_, ?_, ?_, ?_, ?_, ?_, ?_⟩
  · simp only [ClickCounter.count_for_click]
    split <;> rfl
  · simp only [ClickCounter.count_for_click]
    split <;> rfl
  · simp only [ClickCounter.count_for_click]
    split <;> rfl
  · simp only [ClickCounter.count_for_click]
  · simp only [ClickCounter.count_for_click]
    split <;> exact Nat.min_le_right _ _
  · rw [h1]
  · rw [h1, h2]
  · rw [h1, h2]
    norm_num [ClickCounter.count_for_click, Point.dist_gt, MULTI_CLICK_INTERVAL,
      MULTI_CLICK_MAX_DISTANCE, Duration.from_millis, saturating_succ, Nat.min_def]

/-- C2: the modifier set of the event returned by `key_event` contains each
of the six semantic modifier flags exactly when the engine reports the
corresponding cached index effectively active, contains no other flags, and —
under the external contract that the absent sentinel is never reported
active — never contains a flag whose cached index is the absent sentinel. -/
theorem C2_key_event_modifier_set (σ : Type) (env : XkbEnv σ) (s : State σ)
    (scancode : Nat) (ks : KeyState) (r : Bool)
    (habsent : env.state_mod_index_is_active s.state XKB_MOD_INVALID = 0) :
    (Modifiers.contains (State.key_event env s scancode ks r).1.mods Modifiers.CONTROL ↔
      env.state_mod_index_is_active s.state s.mods.control ≠ 0) ∧
    (Modifiers.contains (State.key_event env s scancode ks r).1.mods Modifiers.SHIFT ↔
      env.state_mod_index_is_active s.state s.mods.shift ≠ 0) ∧
    (Modifiers.contains (State.key_event env s scancode ks r).1.mods Modifiers.SUPER ↔
      env.state_mod_index_is_active s.state s.mods.super_ ≠ 0) ∧
    (Modifiers.contains (State.key_event env s scancode ks r).1.mods Modifiers.ALT ↔
      env.state_mod_index_is_active s.state s.mods.alt ≠ 0) ∧
    (Modifiers.contains (State.key_event env s scancode ks r).1.mods Modifiers.CAPS_LOCK ↔
      env.state_mod_index_is_active s.state s.mods.caps_lock ≠ 0) ∧
    (Modifiers.contains (State.key_event env s scancode ks r).1.mods Modifiers.NUM_LOCK ↔
      env.state_mod_index_is_active s.state s.mods.num_lock ≠ 0) ∧
    ((State.key_event env s scancode ks r).1.mods |||
        (Modifiers.ALT ||| Modifiers.CAPS_LOCK ||| Modifiers.CONTROL |||
          Modifiers.NUM_LOCK ||| Modifiers.SHIFT ||| Modifiers.SUPER) =
      (Modifiers.ALT ||| Modifiers.CAPS_LOCK ||| Modifiers.CONTROL |||
        Modifiers.NUM_LOCK ||| Modifiers.SHIFT ||| Modifiers.SUPER)) ∧
    (s.mods.control = XKB_MOD_INVALID →
      ¬ Modifiers.contains (State.key_event env s scancode ks r).1.mods Modifiers.CONTROL) ∧
    (s.mods.shift = XKB_MOD_INVALID →
      ¬ Modifiers.contains (State.key_event env s scancode ks r).1.mods Modifiers.SHIFT) ∧
    (s.mods.super_ = XKB_MOD_INVALID →
      ¬ Modifiers.contains (State.key_event env s scancode ks r).1.mods Modifiers.SUPER) ∧
    (s.mods.alt = XKB_MOD_INVALID →
      ¬ Modifiers.contains (State.key_event env s scancode ks r).1.mods Modifiers.ALT) ∧
    (s.mods.caps_lock = XKB_MOD_INVALID →
      ¬ Modifiers.contains (State.key_event env s scancode ks r).1.mods Modifiers.CAPS_LOCK) ∧
    (s.mods.num_lock = XKB_MOD_INVALID →
      ¬ Modifiers.contains (State.key_event env s scancode ks r).1.mods Modifiers.NUM_LOCK) := by
  have main :
      (Modifiers.contains (State.key_event env s scancode ks r).1.mods Modifiers.CONTROL ↔
        env.state_mod_index_is_active s.state s.mods.control ≠ 0) ∧
      (Modifiers.contains (State.key_event env s scancode ks r).1.mods Modifiers.SHIFT ↔
        env.state_mod_index_is_active s.state s.mods.shift ≠ 0) ∧
      (Modifiers.contains (State.key_event env s scancode ks r).1.mods Modifiers.SUPER ↔
        env.state_mod_index_is_active s.state s.mods.super_ ≠ 0) ∧
      (Modifiers.contains (State.key_event env s scancode ks r).1.mods Modifiers.ALT ↔
        env.state_mod_index_is_active s.state s.mods.alt ≠ 0) ∧
      (Modifiers.contains (State.key_event env s scancode ks r).1.mods Modifiers.CAPS_LOCK ↔
        env.state_mod_index_is_active s.state s.mods.caps_lock ≠ 0) ∧
      (Modifiers.contains (State.key_event env s scancode ks r).1.mods Modifiers.NUM_LOCK ↔
        env.state_mod_index_is_active s.state s.mods.num_lock ≠ 0) ∧
      ((State.key_event env s scancode ks r).1.mods |||
          (Modifiers.ALT ||| Modifiers.CAPS_LOCK ||| Modifiers.CONTROL |||
            Modifiers.NUM_LOCK ||| Modifiers.SHIFT ||| Modifiers.SUPER) =
        (Modifiers.ALT ||| Modifiers.CAPS_LOCK ||| Modifiers.CONTROL |||
          Modifiers.NUM_LOCK ||| Modifiers.SHIFT ||| Modifiers.SUPER)) := by
    simp only [State.key_event, State.mod_pairs, List.foldl_cons, List.foldl_nil]
    by_cases h1 : env.state_mod_index_is_active s.state s.mods.control = 0 <;>
      by_cases h2 : env.state_mod_index_is_active s.state s.mods.shift = 0 <;>
      by_cases h3 : env.state_mod_index_is_active s.state s.mods.super_ = 0 <;>
      by_cases h4 : env.state_mod_index_is_active s.state s.mods.alt = 0 <;>
      by_cases h5 : env.state_mod_index_is_active s.state s.mods.caps_lock = 0 <;>
      by_cases h6 : env.state_mod_index_is_active s.state s.mods.num_lock = 0 <;>
      simp [h1, h2, h3, h4, h5, h6, Modifiers.contains, Modifiers.empty,
        Modifiers.CONTROL, Modifiers.SHIFT, Modifiers.SUPER, Modifiers.ALT,
        Modifiers.CAPS_LOCK, Modifiers.NUM_LOCK] <;>
      decide
  obtain ⟨i1, i2, i3, i4, i5, i6, hsub⟩ := main
  refine ⟨i1, i2, i3, i4, i5, i6, hsub, ?_, ?_, ?_, ?_, ?_, ?_⟩
  · intro hidx hc
    apply i1.mp hc
    rw [hidx]
    exact habsent
  · intro hidx hc
    apply i2.mp hc
    rw [hidx]
    exact habsent
  · intro hidx hc
    apply i3.mp hc
    rw [hidx]
    exact habsent
  · intro hidx hc
    apply i4.mp hc
    rw [hidx]
    exact habsent
  · intro hidx hc
    apply i5.mp hc
    rw [hidx]
    exact habsent
  · intro hidx hc
    apply i6.mp hc
    rw [hidx]
    exact habsent

/-- Witness for C2: with every cached index absent and an engine honouring
the absent-index contract, the event's modifier set holds no Control flag. -/
theorem C2_key_event_modifier_set_witness :
    ¬ Modifiers.contains
        (State.key_event witnessEnv
          { state := 0,
            mods := ModsIndices.mk XKB_MOD_INVALID XKB_MOD_INVALID XKB_MOD_INVALID
              XKB_MOD_INVALID XKB_MOD_INVALID XKB_MOD_INVALID }
          30 KeyState.Down false).1.mods Modifiers.CONTROL :=
  (C2_key_event_modifier_set Nat witnessEnv
      { state := 0,
        mods := ModsIndices.mk XKB_MOD_INVALID XKB_MOD_INVALID XKB_MOD_INVALID
          XKB_MOD_INVALID XKB_MOD_INVALID XKB_MOD_INVALID }
      30 KeyState.Down false rfl).2.2.2.2.2.2.2.1 rfl

lemma Counter.after_add (m n : Nat) (c : Counter) :
    Counter.after (m + n) c = Counter.after n (Counter.after m c) := by
  induction m generalizing c with
  | zero => simp [Counter.after]
  | succ m ih =>
      have hmn : m + 1 + n = (m + n) + 1 := by omega
      rw [hmn, Counter.after, ih]
      rfl

lemma Counter.next_nonzero_state (c : Counter) :
    (Counter.next_nonzero c).2 = (Counter.next c).2 := rfl

/-- C8 counterexample: the state `0` is reachable — from a fresh counter,
`2 ^ 64 - 1` calls wrap the stored value to `0` — and on it `next_nonzero`
returns the panicking `none` (`NonZeroU64::new(0).unwrap()`). -/
theorem C8_counterexample_wraparound_panics :
    (Counter.next_nonzero (Counter.after (2 ^ 64 - 1) Counter.new)).1 = none := by
  have hsplit : (2 : Nat) ^ 64 - 1 = (2 ^ 64 - 2) + 1 := by norm_num
  have h1 : Counter.after (2 ^ 64 - 2) Counter.new = 2 ^ 64 - 1 := by
    have h := Counter.after_no_wrap (2 ^ 64 - 2) 1 (by norm_num)
    rw [show Counter.new = 1 from rfl, h]
    norm_num
  have hafter : Counter.after (2 ^ 64 - 1) Counter.new = 0 := by
    rw [hsplit, Counter.after_add, h1]
    show (Counter.next (2 ^ 64 - 1)).2 = 0
    rw [Counter.next]
    have hc : (2 : Nat) ^ 64 - 1 + 1 = 2 ^ 64 := Nat.sub_add_cancel Nat.one_le_two_pow
    simp only [hc, Nat.mod_self]
  rw [hafter]
  rfl

/-- C8 amended: `next_nonzero` returns a nonzero value (and its unwrap does
not panic) on every counter state reached *without wrapping*: from
`new_unchecked s` with `0 < s`, after any `n` further `next`/`next_nonzero`
calls with `s + n < 2 ^ 64`; in particular from `new` (start `1`) after `n`
calls with `n + 1 < 2 ^ 64`. -/
theorem C8_next_nonzero_nonzero_before_wrap (s n : Nat) (h0 : 0 < s)
    (h : s + n < 2 ^ 64) :
    (Counter.next_nonzero (Counter.after n (Counter.new_unchecked s))).1 = some (s + n) ∧
    (Counter.next_nonzero (Counter.after n (Counter.new_unchecked s))).1 ≠ none ∧
    (Counter.next_nonzero (Counter.after n Counter.new)).1 = some (1 + n) := by
  have hs : s < 2 ^ 64 := lt_of_le_of_lt (Nat.le_add_right s n) h
  have hval : Counter.new_unchecked s = s := Nat.mod_eq_of_lt hs
  have hafter : Counter.after n (Counter.new_unchecked s) = s + n := by
    rw [hval]
    exact Counter.after_no_wrap n s h
  have hnz : s + n ≠ 0 := by omega
  have h1n : (1 : Nat) + n < 2 ^ 64 := by
    rw [show (2 : Nat) ^ 64 = 18446744073709551616 from by norm_num] at h ⊢
    omega
  have hafter1 : Counter.after n Counter.new = 1 + n :=
    Counter.after_no_wrap n 1 h1n
  refine ⟨?_, ?_, ?_⟩
  · rw [hafter]
    simp [Counter.next_nonzero, Counter.next, hnz]
  · rw [hafter]
    simp [Counter.next_nonzero, Counter.next, hnz]
  · rw [hafter1]
    simp [Counter.next_nonzero, Counter.next]

/-- Witness for the amended C8 at `s = 5`, `n = 2`. -/
theorem C8_next_nonzero_nonzero_before_wrap_witness :
    (Counter.next_nonzero (Counter.after 2 (Counter.new_unchecked 5))).1 = some 7 :=
  (C8_next_nonzero_nonzero_before_wrap 5 2 (by norm_num) (by norm_num)).1
